import Mathlib

/-!
Shallow embedding of the PostgreSQL real-time monitor core
(AlertSystem.cpp, QueryEngine.cpp, DatabaseManager.cpp), with theorems
checking the natural-language specification against the code.

Modelling conventions:
timestamps (QDateTime) are integers; a tabular result (pqxx::result) is a
list of rows, each a list of cell strings; machine int fields are Int with
explicit range hypotheses where overflow matters; the std::hash applied at
the end of calculateResultHash is modelled by the identity on the hash
input string (injective on the bounded prefix, collisions abstracted);
mutex-guarded code is modelled sequentially with an explicit time
parameter standing for QDateTime::currentDateTime().
-/

/-- Severity levels, from AlertSystem.h. -/
inductive AlertType where
  | CRITICAL
  | WARNING
  | INFO
deriving DecidableEq, Repr

/-- Alert record, from AlertSystem.h. -/
structure Alert where
  id : Int
  type : AlertType
  title : String
  message : String
  querySource : String
  timestamp : Int
  rawResult : String
deriving DecidableEq, Repr

/-- State of the AlertSystem class (its private fields). -/
structure AlertSystemState where
  alerts : List Alert
  nextAlertId : Int
  duplicateDetectionEnabled : Bool
  duplicateTimeWindow : Int
  maxAlerts : Int
deriving DecidableEq, Repr

/-- AlertSystem constructor: nextAlertId 1, duplicate detection on,
window 30 s, capacity 1000. -/
def initAlertSystem : AlertSystemState :=
  { alerts := [], nextAlertId := 1, duplicateDetectionEnabled := true,
    duplicateTimeWindow := 30, maxAlerts := 1000 }

/-- static_cast of an int to the 64-bit size_t used in size comparisons. -/
def sizeTCast (i : Int) : Nat := (i.emod (2 ^ 64)).toNat

/-- AlertSystem::isDuplicateInternal: an existing alert not older than the
cutoff with equal type, source, title and message. -/
def isDuplicateInternal (s : AlertSystemState) (now : Int) (alert : Alert) : Bool :=
  s.alerts.any fun ex =>
    decide (now - s.duplicateTimeWindow ≤ ex.timestamp) &&
    decide (ex.type = alert.type) &&
    decide (ex.querySource = alert.querySource) &&
    decide (ex.title = alert.title) &&
    decide (ex.message = alert.message)

/-- AlertSystem::removeOldestAlerts: drop removeCount alerts from the
front; clears the store when removeCount is at least its size. -/
def removeOldestAlerts (removeCount : Int) (alerts : List Alert) : List Alert :=
  if removeCount ≤ 0 then alerts
  else if (alerts.length : Int) ≤ removeCount then []
  else alerts.drop removeCount.toNat

/-- AlertSystem::addAlert(const Alert&): duplicate suppression, id and
timestamp assignment, append, then capacity enforcement. Returns the new
state and the int return value (-1 when suppressed). -/
def addAlert (s : AlertSystemState) (now : Int) (alert : Alert) : AlertSystemState × Int :=
  if s.duplicateDetectionEnabled && isDuplicateInternal s now alert then (s, -1)
  else
    let newAlert := { alert with id := s.nextAlertId, timestamp := now }
    let alerts1 := s.alerts ++ [newAlert]
    let alerts2 :=
      if sizeTCast s.maxAlerts < alerts1.length then
        removeOldestAlerts ((alerts1.length : Int) - (sizeTCast s.maxAlerts : Int)) alerts1
      else alerts1
    ({ s with alerts := alerts2, nextAlertId := s.nextAlertId + 1 }, s.nextAlertId)

/-- The field-wise AlertSystem::addAlert overload: builds an Alert (id and
timestamp are defaulted, then overwritten by addAlert) and appends it. -/
def addAlertFields (s : AlertSystemState) (now : Int) (type : AlertType)
    (title message querySource rawResult : String) : AlertSystemState × Int :=
  addAlert s now
    { id := 0, type := type, title := title, message := message,
      querySource := querySource, timestamp := 0, rawResult := rawResult }

/-- Whitespace characters skipped by std::stoi. -/
def stoiSpaces : List Char := [' ', '\t', '\n', Char.ofNat 11, Char.ofNat 12, '\r']

/-- Model of std::stoi on a string: skip leading whitespace, optional
sign, then a non-empty digit run; none models the thrown exception
(no digits, or value outside the 32-bit int range). -/
def stoi (str : String) : Option Int :=
  let cs := str.toList.dropWhile fun c => stoiSpaces.contains c
  let signed : Int × List Char :=
    match cs with
    | '-' :: rest => (-1, rest)
    | '+' :: rest => (1, rest)
    | _ => (1, cs)
  let ds := signed.2.takeWhile Char.isDigit
  if ds.isEmpty then none
  else
    let mag : Nat := ds.foldl (fun a c => a * 10 + (c.toNat - 48)) 0
    let v : Int := signed.1 * (mag : Int)
    if v < -(2 ^ 31) ∨ 2 ^ 31 - 1 < v then none else some v

/-- AlertSystem::classifyFromThreshold, translated branch by branch from
the source: empty results classify as INFO; only results with at least
two rows have their first cell parsed; everything else returns
defaultType. -/
def classifyFromThreshold (result : List (List String)) (threshold : Int)
    (defaultType : AlertType) : AlertType :=
  if result.isEmpty then AlertType.INFO
  else if 2 ≤ result.length then
    match result.head? with
    | some firstRow =>
      match firstRow.head? with
      | some firstValue =>
        match stoi firstValue with
        | some count =>
          if threshold ≤ count then
            if threshold * 2 ≤ count then AlertType.CRITICAL else AlertType.WARNING
          else defaultType
        | none => defaultType
      | none => defaultType
    | none => defaultType
  else defaultType

/-- Loop body of AlertSystem::getRecentAlerts: walk the reversed deque,
prepending to the accumulator while count < maxCount. -/
def takeRecentLoop (maxCount : Int) : List Alert → Int → List Alert → List Alert
  | [], _, acc => acc
  | x :: xs, count, acc =>
    if count < maxCount then takeRecentLoop maxCount xs (count + 1) (x :: acc) else acc

/-- AlertSystem::getRecentAlerts. -/
def getRecentAlerts (s : AlertSystemState) (maxCount : Int) : List Alert :=
  takeRecentLoop maxCount s.alerts.reverse 0 []

/-- Loop body of AlertSystem::getAlertsByType: as takeRecentLoop, but the
counter advances only on alerts of the requested type. -/
def takeByTypeLoop (type : AlertType) (maxCount : Int) :
    List Alert → Int → List Alert → List Alert
  | [], _, acc => acc
  | x :: xs, count, acc =>
    if count < maxCount then
      if x.type = type then takeByTypeLoop type maxCount xs (count + 1) (x :: acc)
      else takeByTypeLoop type maxCount xs count acc
    else acc

/-- AlertSystem::getAlertsByType. -/
def getAlertsByType (s : AlertSystemState) (type : AlertType) (maxCount : Int) : List Alert :=
  takeByTypeLoop type maxCount s.alerts.reverse 0 []

/-- AlertSystem::getAlertsSince: forward walk over the deque, prepending
every alert with timestamp at or after the bound. -/
def getAlertsSince (s : AlertSystemState) (since : Int) : List Alert :=
  s.alerts.foldl (fun acc a => if since ≤ a.timestamp then a :: acc else acc) []

/-- AlertSystem::cleanupOldAlerts: erase alerts strictly older than the
cutoff. -/
def cleanupOldAlerts (s : AlertSystemState) (maxAgeSeconds : Int) (now : Int) :
    AlertSystemState :=
  { s with alerts := s.alerts.filter fun a => decide (now - maxAgeSeconds ≤ a.timestamp) }

/-- AlertSystem::enforceMaxAlerts. -/
def enforceMaxAlerts (s : AlertSystemState) (maxAlerts : Int) : AlertSystemState :=
  if sizeTCast maxAlerts < s.alerts.length then
    { s with alerts :=
        removeOldestAlerts ((s.alerts.length : Int) - (sizeTCast maxAlerts : Int)) s.alerts }
  else s

/-- Query definition, from QueryEngine.h (QueryConfig). -/
structure QueryConfig where
  id : String
  name : String
  sql : String
  alertType : AlertType
  threshold : Int
  enabled : Bool
  timeoutSeconds : Int
deriving DecidableEq, Repr

/-- Result of one query execution, from QueryEngine.h (QueryResult). -/
structure QueryResult where
  queryId : String
  queryName : String
  success : Bool
  errorMessage : String
  data : List (List String)
  timestamp : Int
  executionTime : Int
deriving DecidableEq, Repr

/-- Entry of the content-digest history (QueryEngine::QueryHash). -/
structure QueryHashEntry where
  queryId : String
  dataHash : String
  timestamp : Int
deriving DecidableEq, Repr

/-- Qt signals emitted by QueryEngine, as observable events. -/
inductive EngineEvent where
  | queryError (queryId : String) (message : String)
  | monitoringStarted
  | monitoringStopped
  | alertGenerated (alert : Alert)
  | queryExecuted (result : QueryResult)
deriving DecidableEq, Repr

/-- State of the QueryEngine class: registry (std::map keyed by query id),
monitoring flag, timer, interval, statistics, and digest history. -/
structure QueryEngineState where
  queries : List (String × QueryConfig)
  isMonitoring : Bool
  timerActive : Bool
  interval : Int
  totalExecutions : Int
  totalFailures : Int
  queryHistory : List QueryHashEntry
deriving DecidableEq, Repr

/-- QueryEngine::getQuery: registry lookup by id. -/
def getQuery (queries : List (String × QueryConfig)) (queryId : String) : Option QueryConfig :=
  (queries.find? fun p => decide (p.1 = queryId)).map Prod.snd

/-- QueryEngine::startMonitoring: rejects when already monitoring, when the
database is not connected, or when the registry is empty; otherwise sets
the monitoring flag and starts the timer. -/
def startMonitoring (s : QueryEngineState) (connected : Bool) :
    QueryEngineState × List EngineEvent :=
  if s.isMonitoring then (s, [])
  else if !connected then (s, [EngineEvent.queryError "" "Database not connected"])
  else if s.queries.isEmpty then (s, [EngineEvent.queryError "" "No queries configured"])
  else ({ s with isMonitoring := true, timerActive := true }, [EngineEvent.monitoringStarted])

/-- QueryEngine::stopMonitoring: clears the monitoring flag and stops the
timer; it does not signal in-flight workers. -/
def stopMonitoring (s : QueryEngineState) : QueryEngineState × List EngineEvent :=
  if !s.isMonitoring then (s, [])
  else ({ s with isMonitoring := false, timerActive := false }, [EngineEvent.monitoringStopped])

/-- Per-row part of QueryEngine::calculateResultHash: up to three cells,
each followed by a field separator, then a row separator. -/
def hashRowPart (row : List String) : String :=
  (row.take 3).foldl (fun acc cell => acc ++ cell ++ "|") "" ++ ";"

/-- QueryEngine::calculateResultHash: row count, then the bounded 3 by 3
cell window; the final std::hash is modelled by the identity on the hash
input string. -/
def calculateResultHash (result : List (List String)) : String :=
  if result.isEmpty then "empty"
  else
    toString result.length ++ "_" ++
      (result.take 3).foldl (fun acc row => acc ++ hashRowPart row) ""

/-- QueryEngine::isRecentDuplicate: an entry for the same query with the
same digest and timestamp at or after the cutoff. -/
def isRecentDuplicate (history : List QueryHashEntry) (queryId : String)
    (dataHash : String) (timeWindowSeconds : Int) (now : Int) : Bool :=
  history.any fun e =>
    decide (e.queryId = queryId) && decide (e.dataHash = dataHash) &&
    decide (now - timeWindowSeconds ≤ e.timestamp)

/-- QueryEngine::cleanupQueryHistory: purge entries older than 60 s, then
cap the history at MAX_QUERY_HISTORY = 100 entries, oldest first. -/
def cleanupQueryHistory (history : List QueryHashEntry) (now : Int) : List QueryHashEntry :=
  let purged := history.filter fun e => decide (now - 60 ≤ e.timestamp)
  purged.drop (purged.length - 100)

/-- QueryEngine::updateStatistics: bump execution and failure counters and,
for a successful non-empty result, record its content digest in the
history. -/
def updateStatistics (s : QueryEngineState) (now : Int) (result : QueryResult) :
    QueryEngineState :=
  let s1 := { s with
    totalExecutions := s.totalExecutions + 1,
    totalFailures := s.totalFailures + (if result.success then 0 else 1) }
  if result.success && !result.data.isEmpty then
    { s1 with queryHistory := s1.queryHistory ++
        [{ queryId := result.queryId, dataHash := calculateResultHash result.data,
           timestamp := now }] }
  else s1

/-- QueryEngine::formatAlertMessage: first cell of the first row, with a
row-count suffix when more rows exist; fallbacks for empty results and
empty first rows. -/
def formatAlertMessage (result : List (List String)) : String :=
  match result with
  | [] => "No results returned from query"
  | firstRow :: _ =>
    match firstRow.head? with
    | some firstValue =>
      if result.length = 1 then firstValue
      else firstValue ++ " (and " ++ toString (result.length - 1) ++ " more rows)"
    | none => "Query returned " ++ toString result.length ++ " row(s)"

/-- The Alert record built by the field-wise addAlert call inside
QueryEngine::generateErrorAlert. -/
def errorAlertFor (q : QueryConfig) (err : String) : Alert :=
  { id := 0, type := AlertType.WARNING, title := q.name,
    message := "Query execution failed: " ++ err, querySource := q.id,
    timestamp := 0, rawResult := "Query error: " ++ err }

/-- QueryEngine::generateDataAlert: look up the query, apply threshold
classification when threshold > 0, format the message, append the alert,
and emit alertGenerated when the append was accepted. -/
def generateDataAlert (queries : List (String × QueryConfig)) (a : AlertSystemState)
    (now : Int) (result : QueryResult) : AlertSystemState × List EngineEvent :=
  match getQuery queries result.queryId with
  | none => (a, [])
  | some query =>
    let alertType :=
      if 0 < query.threshold then
        classifyFromThreshold result.data query.threshold query.alertType
      else query.alertType
    let message := formatAlertMessage result.data
    let step := addAlertFields a now alertType query.name message query.id
      "Data returned from query"
    if 0 < step.2 then
      (step.1, [EngineEvent.alertGenerated
        { id := step.2, type := alertType, title := query.name, message := message,
          querySource := query.id, timestamp := now,
          rawResult := "Query executed successfully" }])
    else (step.1, [])

/-- QueryEngine::generateErrorAlert: look up the query, append a WARNING
alert carrying the error message, and emit alertGenerated when accepted. -/
def generateErrorAlert (queries : List (String × QueryConfig)) (a : AlertSystemState)
    (now : Int) (result : QueryResult) : AlertSystemState × List EngineEvent :=
  match getQuery queries result.queryId with
  | none => (a, [])
  | some query =>
    let step := addAlert a now (errorAlertFor query result.errorMessage)
    if 0 < step.2 then
      (step.1, [EngineEvent.alertGenerated
        { id := step.2, type := AlertType.WARNING, title := query.name,
          message := "Query execution failed: " ++ result.errorMessage,
          querySource := query.id, timestamp := now,
          rawResult := result.errorMessage }])
    else (step.1, [])

/-- QueryEngine::processQueryResult: successful non-empty results feed the
data-alert path, failed results the error-alert path. -/
def processQueryResult (queries : List (String × QueryConfig)) (a : AlertSystemState)
    (now : Int) (result : QueryResult) : AlertSystemState × List EngineEvent :=
  if result.success && !result.data.isEmpty then generateDataAlert queries a now result
  else if !result.success then generateErrorAlert queries a now result
  else (a, [])

/-- QueryEngine::onQueryCompleted: update statistics (recording the
digest), process the result into alerts, clean the history, and emit
queryExecuted. -/
def onQueryCompleted (es : QueryEngineState) (a : AlertSystemState) (now : Int)
    (result : QueryResult) : QueryEngineState × AlertSystemState × List EngineEvent :=
  let es1 := updateStatistics es now result
  let step := processQueryResult es1.queries a now result
  let es2 := { es1 with queryHistory := cleanupQueryHistory es1.queryHistory now }
  (es2, step.1, step.2 ++ [EngineEvent.queryExecuted result])

/-- QueryWorker::execute. The stop flag is read exactly once, before the
backend call; shouldStopAtCheck is its value at that moment. When it is
false the worker runs the query and unconditionally emits its completed
result; a stop request arriving later is never consulted again. -/
def queryWorkerExecute (shouldStopAtCheck : Bool) (query : QueryConfig)
    (connected : Bool) (backend : String → Except String (List (List String)))
    (now : Int) : Option QueryResult :=
  if shouldStopAtCheck then none
  else
    some <|
      if !connected then
        { queryId := query.id, queryName := query.name, success := false,
          errorMessage := "Database not connected", data := [],
          timestamp := now, executionTime := 0 }
      else
        match backend query.sql with
        | Except.ok data =>
          { queryId := query.id, queryName := query.name, success := true,
            errorMessage := "", data := data, timestamp := now, executionTime := 0 }
        | Except.error e =>
          { queryId := query.id, queryName := query.name, success := false,
            errorMessage := e, data := [], timestamp := now, executionTime := 0 }

/-- One timer tick of the worker-based scheduler pipeline
(QueryEngine::executeAllQueries followed by each completion being handled
by onQueryCompleted), modelled sequentially: every enabled query is
executed by a fresh worker whose stop flag is untouched, and completions
arrive in registry order. -/
def runTick (es : QueryEngineState) (a : AlertSystemState) (connected : Bool)
    (backend : String → Except String (List (List String))) (now : Int) :
    QueryEngineState × AlertSystemState × List EngineEvent :=
  if !connected then (es, a, [])
  else
    (es.queries.filter fun p => p.2.enabled).foldl
      (fun acc p =>
        match queryWorkerExecute false p.2 connected backend now with
        | none => acc
        | some r =>
          let step := onQueryCompleted acc.1 acc.2.1 now r
          (step.1, step.2.1, acc.2.2 ++ step.2.2))
      (es, a, [])

/-- Qt signals emitted by DatabaseManager, as observable events. -/
inductive DbEvent where
  | connectionStatusChanged (connected : Bool)
  | connectionError (message : String)
  | reconnectionAttempt (count : Int)
deriving DecidableEq, Repr

/-- State of the DatabaseManager class: connected flag, whether the
pqxx::connection object exists, auto-reconnect flag, attempt counter and
reconnect timer. -/
structure DbState where
  isConnected : Bool
  hasConnection : Bool
  autoReconnectEnabled : Bool
  connectionAttemptCount : Int
  timerArmed : Bool
deriving DecidableEq, Repr

/-- DatabaseManager constructor state. -/
def initDbState : DbState :=
  { isConnected := false, hasConnection := false, autoReconnectEnabled := false,
    connectionAttemptCount := 0, timerArmed := false }

/-- DatabaseManager::updateConnectionStatus: emits connectionStatusChanged
only on an actual transition. -/
def updateConnectionStatus (s : DbState) (connected : Bool) : DbState × List DbEvent :=
  let s2 := { s with isConnected := connected }
  if s.isConnected != connected then (s2, [DbEvent.connectionStatusChanged connected])
  else (s2, [])

/-- DatabaseManager::setError: emits connectionError. -/
def dbSetError (message : String) : List DbEvent := [DbEvent.connectionError message]

/-- DatabaseManager::createConnection. The success parameter stands for the
backend outcome (constructor, is_open and liveness probe all succeeding).
On success it sets the flags directly and emits nothing; on failure it
only reports the error. -/
def createConnection (success : Bool) (s : DbState) : DbState × Bool × List DbEvent :=
  if success then ({ s with hasConnection := true, isConnected := true }, true, [])
  else (s, false, dbSetError "Connection failed")

/-- DatabaseManager::disconnect: stop the reconnect timer, drop the
connection object and report the status change. -/
def dbDisconnect (s : DbState) : DbState × List DbEvent :=
  let s1 := { s with timerArmed := false }
  if s1.hasConnection then
    updateConnectionStatus { s1 with hasConnection := false } false
  else (s1, [])

/-- DatabaseManager::reconnect: disconnect then createConnection (the
recursive mutex acquisition of the source is modelled sequentially). -/
def dbReconnect (success : Bool) (s : DbState) : DbState × Bool × List DbEvent :=
  let step1 := dbDisconnect s
  let step2 := createConnection success step1.1
  (step2.1, step2.2.1, step1.2 ++ step2.2.2)

/-- DatabaseManager::connect(config): counts the attempt, creates the
connection and reports the resulting status. -/
def dbConnect (success : Bool) (s : DbState) : DbState × Bool × List DbEvent :=
  let s1 := { s with connectionAttemptCount := s.connectionAttemptCount + 1 }
  let step := createConnection success s1
  let step2 := updateConnectionStatus step.1 step.2.1
  (step2.1, step.2.1, step.2.2 ++ step2.2)

/-- The catch branch of DatabaseManager::executeQuery: report the error and
invalidate the connection status (the queued attemptReconnect call is the
reconnect loop that follows). -/
def dbQueryFailure (s : DbState) (message : String) : DbState × List DbEvent :=
  let evs1 := dbSetError ("Query execution failed: " ++ message)
  let step := updateConnectionStatus s false
  (step.1, evs1 ++ step.2)

/-- DatabaseManager::enableAutoReconnect. -/
def enableAutoReconnect (s : DbState) (enabled : Bool) : DbState :=
  let s1 := { s with autoReconnectEnabled := enabled }
  if !enabled then { s1 with timerArmed := false } else s1

/-- DatabaseManager::attemptReconnect: when auto-reconnect is enabled, emit
reconnectionAttempt with the current counter, run reconnect; on success
reset the counter to zero, on failure re-arm the timer. -/
def attemptReconnect (success : Bool) (s : DbState) : DbState × List DbEvent :=
  if !s.autoReconnectEnabled then (s, [])
  else
    let evs0 := [DbEvent.reconnectionAttempt s.connectionAttemptCount]
    let step := dbReconnect success s
    if step.2.1 then
      ({ step.1 with connectionAttemptCount := 0 }, evs0 ++ step.2.2)
    else
      let s3 := if step.1.autoReconnectEnabled then { step.1 with timerArmed := true }
                else step.1
      (s3, evs0 ++ step.2.2)

/-- A run of timer-driven attemptReconnect calls; each Bool is the backend
outcome of that attempt. -/
def reconnectLoop : List Bool → DbState → DbState × List DbEvent
  | [], s => (s, [])
  | oc :: rest, s =>
    let step1 := attemptReconnect oc s
    let step2 := reconnectLoop rest step1.1
    (step2.1, step1.2 ++ step2.2)

/-- Recognizes reconnectionAttempt events. -/
def isReconnectionAttemptEvent : DbEvent → Bool
  | DbEvent.reconnectionAttempt _ => true
  | _ => false

/-- Recognizes connectionStatusChanged true events. -/
def isStatusChangedTrue : DbEvent → Bool
  | DbEvent.connectionStatusChanged b => b
  | _ => false

/-- Keep only the last cap elements of a list, in order. -/
def trunc (cap : Nat) (l : List Alert) : List Alert := l.drop (l.length - cap)

/-- The list of consecutive integers of the given length starting at
start. -/
def intsFrom (start : Int) : Nat → List Int
  | 0 => []
  | n + 1 => start :: intsFrom (start + 1) n

/-- The alerts as the store records them: each input (time, alert) with the
store-assigned id and timestamp substituted. -/
def storedAlerts (nextId : Int) : List (Int × Alert) → List Alert
  | [] => []
  | (now, a) :: rest =>
    { a with id := nextId, timestamp := now } :: storedAlerts (nextId + 1) rest

/-- Run a sequence of addAlert calls. -/
def appendAll (s : AlertSystemState) : List (Int × Alert) → AlertSystemState
  | [] => s
  | (now, a) :: rest => appendAll (addAlert s now a).1 rest

/-- The public mutating operations of AlertSystem, for whole-history
statements. -/
inductive StoreOp where
  | add (now : Int) (alert : Alert)
  | cleanup (maxAgeSeconds : Int) (now : Int)
  | enforce (maxAlerts : Int)
  | setDuplicateDetection (enabled : Bool)
  | setDuplicateWindow (seconds : Int)
  | setMaximumAlerts (m : Int)
deriving Repr

/-- Apply one store operation; the Int list holds the return value of an
addAlert call, and is empty for the other operations. -/
def applyStoreOp (s : AlertSystemState) : StoreOp → AlertSystemState × List Int
  | StoreOp.add now a => let step := addAlert s now a; (step.1, [step.2])
  | StoreOp.cleanup age now => (cleanupOldAlerts s age now, [])
  | StoreOp.enforce m => (enforceMaxAlerts s m, [])
  | StoreOp.setDuplicateDetection b => ({ s with duplicateDetectionEnabled := b }, [])
  | StoreOp.setDuplicateWindow w => ({ s with duplicateTimeWindow := w }, [])
  | StoreOp.setMaximumAlerts m => ({ s with maxAlerts := m }, [])

/-- Run a sequence of store operations from a starting state, collecting
all addAlert return values in order. -/
def runStoreOps : List StoreOp → AlertSystemState → AlertSystemState × List Int
  | [], s => (s, [])
  | op :: rest, s =>
    let step1 := applyStoreOp s op
    let step2 := runStoreOps rest step1.1
    (step2.1, step1.2 ++ step2.2)

/-- A query registered but disabled, for the startMonitoring check. -/
def disabledQuery : QueryConfig :=
  { id := "q1", name := "Q one", sql := "SELECT 1", alertType := AlertType.INFO,
    threshold := 0, enabled := false, timeoutSeconds := 5 }

/-- An enabled query with no threshold. -/
def oneQuery : QueryConfig :=
  { id := "q1", name := "Q one", sql := "SELECT 1", alertType := AlertType.INFO,
    threshold := 0, enabled := true, timeoutSeconds := 5 }

/-- Engine state holding only the disabled query, not monitoring. -/
def engineDisabledOnly : QueryEngineState :=
  { queries := [("q1", disabledQuery)], isMonitoring := false, timerActive := false,
    interval := 1000, totalExecutions := 0, totalFailures := 0, queryHistory := [] }

/-- Engine state holding the one enabled query, monitoring. -/
def engineRunning : QueryEngineState :=
  { queries := [("q1", oneQuery)], isMonitoring := true, timerActive := true,
    interval := 1000, totalExecutions := 0, totalFailures := 0, queryHistory := [] }

/-- A backend whose every query returns the same one-cell result. -/
def constBackend : String → Except String (List (List String)) :=
  fun _ => Except.ok [["x"]]

/-- Three consecutive ticks with identical content, default alert store. -/
def tickRunA : QueryEngineState × AlertSystemState × List EngineEvent :=
  runTick engineRunning initAlertSystem true constBackend 0

/-- Second tick of the identical-content run. -/
def tickRunB : QueryEngineState × AlertSystemState × List EngineEvent :=
  runTick tickRunA.1 tickRunA.2.1 true constBackend 1

/-- Third tick of the identical-content run. -/
def tickRunC : QueryEngineState × AlertSystemState × List EngineEvent :=
  runTick tickRunB.1 tickRunB.2.1 true constBackend 2

/-- The default alert store with duplicate detection turned off through its
public setter. -/
def noDedupStore : AlertSystemState :=
  { initAlertSystem with duplicateDetectionEnabled := false }

/-- First identical-content tick against the dedup-disabled store. -/
def tickNdA : QueryEngineState × AlertSystemState × List EngineEvent :=
  runTick engineRunning noDedupStore true constBackend 0

/-- Second identical-content tick against the dedup-disabled store. -/
def tickNdB : QueryEngineState × AlertSystemState × List EngineEvent :=
  runTick tickNdA.1 tickNdA.2.1 true constBackend 1

/-- The completed result of a worker that passed its stop-flag check before
stop was requested. -/
def inFlightResult : QueryResult :=
  { queryId := "q1", queryName := "Q one", success := true, errorMessage := "",
    data := [["42"]], timestamp := 0, executionTime := 0 }

/-- A backend for the in-flight worker. -/
def fortyTwoBackend : String → Except String (List (List String)) :=
  fun _ => Except.ok [["42"]]

/-- A failing query result. -/
def failResult : QueryResult :=
  { queryId := "q1", queryName := "Q one", success := false, errorMessage := "boom",
    data := [], timestamp := 0, executionTime := 0 }

/-- First processing of the failing result against the default store. -/
def failRun1 : AlertSystemState × List EngineEvent :=
  processQueryResult [("q1", oneQuery)] initAlertSystem 0 failResult

/-- Second processing of the identical failing result one second later. -/
def failRun2 : AlertSystemState × List EngineEvent :=
  processQueryResult [("q1", oneQuery)] failRun1.1 1 failResult

/-- Connection scene for the reconnect loop: auto-reconnect enabled, one
successful connect (counter 1), then a query failure invalidating the
connection. -/
def dbAfterConnect : DbState × Bool × List DbEvent :=
  dbConnect true (enableAutoReconnect initDbState true)

/-- State after the query failure that triggers the reconnect loop. -/
def dbAfterFailure : DbState × List DbEvent :=
  dbQueryFailure dbAfterConnect.1 "server closed the connection"

/-- One failing reconnect attempt followed by one succeeding attempt. -/
def dbLoopRun : DbState × List DbEvent :=
  reconnectLoop [false, true] dbAfterFailure.1

/-- Two alerts in the store, oldest first, for the retrieval-order check. -/
def alertOlder : Alert :=
  { id := 1, type := AlertType.INFO, title := "t one", message := "m one",
    querySource := "q", timestamp := 1, rawResult := "" }

/-- The more recent of the two alerts. -/
def alertNewer : Alert :=
  { id := 2, type := AlertType.INFO, title := "t two", message := "m two",
    querySource := "q", timestamp := 2, rawResult := "" }

/-- A store holding the two alerts in insertion order. -/
def twoAlertStore : AlertSystemState :=
  { initAlertSystem with alerts := [alertOlder, alertNewer], nextAlertId := 3 }

/-- On in-range nonnegative ints the size_t cast is toNat. -/
theorem sizeTCast_of_nonneg {i : Int} (h0 : 0 ≤ i) (h1 : i < 2 ^ 64) :
    sizeTCast i = i.toNat := by
  unfold sizeTCast
  rw [show i.emod (2 ^ 64) = i % (2 ^ 64) from rfl, Int.emod_eq_of_lt h0 h1]

/-- A suppressed addAlert returns -1 and leaves the state unchanged. -/
theorem addAlert_suppressed {s : AlertSystemState} {now : Int} {a : Alert}
    (h : (s.duplicateDetectionEnabled && isDuplicateInternal s now a) = true) :
    addAlert s now a = (s, -1) := by
  simp [addAlert, h]

/-- An accepted addAlert increments the id counter and returns the old
counter value, with no side condition on the capacity. -/
theorem addAlert_accepted_parts {s : AlertSystemState} {now : Int} {a : Alert}
    (h : (s.duplicateDetectionEnabled && isDuplicateInternal s now a) = false) :
    (addAlert s now a).1.nextAlertId = s.nextAlertId + 1 ∧
      (addAlert s now a).2 = s.nextAlertId ∧
      (addAlert s now a).1.duplicateDetectionEnabled = s.duplicateDetectionEnabled ∧
      (addAlert s now a).1.duplicateTimeWindow = s.duplicateTimeWindow ∧
      (addAlert s now a).1.maxAlerts = s.maxAlerts := by
  simp [addAlert, h]

/-- Full characterization of an accepted addAlert with an in-range
capacity: the stored list is the appended list truncated to the last
maxAlerts elements. -/
theorem addAlert_accepted_eq {s : AlertSystemState} {now : Int} {a : Alert}
    (h : (s.duplicateDetectionEnabled && isDuplicateInternal s now a) = false)
    (h0 : 0 ≤ s.maxAlerts) (h1 : s.maxAlerts < 2 ^ 63) :
    addAlert s now a =
      ({ s with
          alerts := trunc s.maxAlerts.toNat
            (s.alerts ++ [{ a with id := s.nextAlertId, timestamp := now }]),
          nextAlertId := s.nextAlertId + 1 }, s.nextAlertId) := by
  have hc : sizeTCast s.maxAlerts = s.maxAlerts.toNat :=
    sizeTCast_of_nonneg h0 (by omega)
  have hCint : ((s.maxAlerts.toNat : Nat) : Int) = s.maxAlerts := Int.toNat_of_nonneg h0
  simp only [addAlert, h, Bool.false_eq_true, if_false, hc]
  set na : Alert := { a with id := s.nextAlertId, timestamp := now } with hna
  set l1 : List Alert := s.alerts ++ [na] with hl1
  have hlen : l1.length = s.alerts.length + 1 := by simp [hl1]
  set C : Nat := s.maxAlerts.toNat with hC
  by_cases hover : C < l1.length
  · rw [if_pos hover]
    rw [removeOldestAlerts]
    rw [if_neg (by omega)]
    by_cases hzero : C = 0
    · rw [if_pos (by omega)]
      simp [trunc, hzero]
    · rw [if_neg (by omega)]
      have htn : ((l1.length : Int) - (C : Int)).toNat = l1.length - C := by omega
      rw [htn]
      simp [trunc]
  · rw [if_neg hover]
    have hz : l1.length - C = 0 := by omega
    simp [trunc, hz]

/-- The last-cap truncation has length min cap length. -/
theorem trunc_length (cap : Nat) (l : List Alert) :
    (trunc cap l).length = min cap l.length := by
  simp [trunc, List.length_drop]
  omega

/-- Truncating, appending, and truncating again agrees with truncating the
whole appended list. -/
theorem trunc_append_trunc (cap : Nat) (l l2 : List Alert) :
    trunc cap (trunc cap l ++ l2) = trunc cap (l ++ l2) := by
  rcases le_or_lt l.length cap with hle | hlt
  · have hz : l.length - cap = 0 := by omega
    simp [trunc, hz]
  · simp only [trunc, List.length_append, List.length_drop]
    have e1 : l.length - (l.length - cap) + l2.length - cap = l2.length := by omega
    rw [e1]
    rw [← List.drop_append_of_le_length (show l.length - cap ≤ l.length by omega)]
    rw [List.drop_drop]
    congr 1
    omega

/-- Truncating an appended singleton with positive capacity keeps the
singleton as the last element. -/
theorem trunc_append_last {cap : Nat} (hcap : 1 ≤ cap) (l : List Alert) (x : Alert) :
    trunc cap (l ++ [x]) = l.drop (l.length + 1 - cap) ++ [x] := by
  simp only [trunc, List.length_append, List.length_cons, List.length_nil]
  rw [List.drop_append_of_le_length (by omega)]

/-- Closed form of the getRecentAlerts loop: it takes a prefix of the
reversed deque and re-reverses it onto the accumulator. -/
theorem takeRecentLoop_eq (m : Int) (l : List Alert) :
    ∀ (c : Int) (acc : List Alert),
      takeRecentLoop m l c acc = (l.take (m - c).toNat).reverse ++ acc := by
  induction l with
  | nil => intro c acc; simp [takeRecentLoop]
  | cons x xs ih =>
    intro c acc
    by_cases h : c < m
    · rw [takeRecentLoop, if_pos h, ih]
      have hk : (m - c).toNat = (m - (c + 1)).toNat + 1 := by omega
      rw [hk, List.take_succ_cons, List.reverse_cons, List.append_assoc,
        List.singleton_append]
    · rw [takeRecentLoop, if_neg h]
      have hk : (m - c).toNat = 0 := by omega
      rw [hk]
      simp

/-- Closed form of the getAlertsByType loop. -/
theorem takeByTypeLoop_eq (ty : AlertType) (m : Int) (l : List Alert) :
    ∀ (c : Int) (acc : List Alert),
      takeByTypeLoop ty m l c acc =
        ((l.filter fun a => decide (a.type = ty)).take (m - c).toNat).reverse ++ acc := by
  induction l with
  | nil => intro c acc; simp [takeByTypeLoop]
  | cons x xs ih =>
    intro c acc
    by_cases h : c < m
    · by_cases hx : x.type = ty
      · rw [takeByTypeLoop, if_pos h, if_pos hx, ih]
        rw [List.filter_cons_of_pos (by simp [hx])]
        have hk : (m - c).toNat = (m - (c + 1)).toNat + 1 := by omega
        rw [hk, List.take_succ_cons, List.reverse_cons, List.append_assoc,
          List.singleton_append]
      · rw [takeByTypeLoop, if_pos h, if_neg hx, ih]
        rw [List.filter_cons_of_neg (by simp [hx])]
    · rw [takeByTypeLoop, if_neg h]
      have hk : (m - c).toNat = 0 := by omega
      rw [hk]
      simp

/-- Closed form of the getAlertsSince fold: reversed filter. -/
theorem foldlSince_eq (t : Int) (l : List Alert) :
    ∀ acc : List Alert,
      l.foldl (fun acc a => if t ≤ a.timestamp then a :: acc else acc) acc =
        (l.filter fun a => decide (t ≤ a.timestamp)).reverse ++ acc := by
  induction l with
  | nil => intro acc; simp
  | cons x xs ih =>
    intro acc
    by_cases h : t ≤ x.timestamp
    · rw [List.foldl_cons, if_pos h, ih, List.filter_cons_of_pos (by simp [h])]
      rw [List.reverse_cons, List.append_assoc, List.singleton_append]
    · rw [List.foldl_cons, if_neg h, ih, List.filter_cons_of_neg (by simp [h])]

/-- Claim C6, counterexample: in a store holding an older and a newer
alert, the count-bounded retrievals getRecentAlerts and getAlertsByType
return chronological (oldest-first) order, not newest-first, and the
time-bounded getAlertsSince returns newest-first order, not
chronological — the opposite of the claimed orders. -/
theorem getAlerts_order_counterexample :
    alertOlder.timestamp < alertNewer.timestamp ∧
    getRecentAlerts twoAlertStore 10 = [alertOlder, alertNewer] ∧
    getRecentAlerts twoAlertStore 10 ≠ [alertNewer, alertOlder] ∧
    getAlertsByType twoAlertStore AlertType.INFO 10 = [alertOlder, alertNewer] ∧
    getAlertsSince twoAlertStore 0 = [alertNewer, alertOlder] ∧
    getAlertsSince twoAlertStore 0 ≠ [alertOlder, alertNewer] := by
  decide

/-- Claim C6, amended: for every store state, the count-bounded retrievals
return the most recent maxCount alerts of the store (respectively, of its
alerts of the requested type) in chronological (oldest-first) insertion
order, and the time-bounded getAlertsSince returns the alerts at or after
the bound in reverse-chronological (newest-first) insertion order. -/
theorem getAlerts_order_amended (s : AlertSystemState) (m : Int) (ty : AlertType)
    (t : Int) :
    getRecentAlerts s m = trunc m.toNat s.alerts ∧
    getAlertsByType s ty m = trunc m.toNat (s.alerts.filter fun a => decide (a.type = ty)) ∧
    getAlertsSince s t = (s.alerts.filter fun a => decide (t ≤ a.timestamp)).reverse := by
  refine ⟨?_, ?_, ?_⟩
  · rw [getRecentAlerts, takeRecentLoop_eq]
    rw [List.take_reverse, List.reverse_reverse, List.append_nil]
    simp [trunc]
  · rw [getAlertsByType, takeByTypeLoop_eq]
    rw [List.filter_reverse, List.take_reverse, List.reverse_reverse, List.append_nil]
    simp [trunc]
  · rw [getAlertsSince, foldlSince_eq, List.append_nil]

/-- Claim C1, counterexample: a one-row result whose first cell parses as
100, with threshold 10, is left at the unchanged defaultType INFO by
classifyFromThreshold, although the claim requires CRITICAL (100 is at
least twice the threshold); the source parses the first cell only when
the result has at least two rows. -/
theorem classifyFromThreshold_counterexample :
    stoi "100" = some 100 ∧
    (10 : Int) ≤ 100 ∧ (10 : Int) * 2 ≤ 100 ∧
    classifyFromThreshold [["100"]] 10 AlertType.INFO = AlertType.INFO ∧
    classifyFromThreshold [["100"]] 10 AlertType.INFO ≠ AlertType.CRITICAL := by
  decide

/-- Claim C1, amended: for a configured threshold t > 0, an empty result
classifies as INFO; a one-row result returns defaultType unchanged with
no parse attempted; a result with at least two rows and a non-empty
first row parses its first cell and classifies CRITICAL when the count
is at least 2t, WARNING when it is at least t but below 2t, and
defaultType on parse failure or a below-threshold count; at least two
rows with an empty first row also return defaultType. -/
theorem classifyFromThreshold_amended (rows : List (List String)) (t : Int)
    (d : AlertType) (ht : 0 < t) :
    (rows = [] → classifyFromThreshold rows t d = AlertType.INFO) ∧
    (∀ r, rows = [r] → classifyFromThreshold rows t d = d) ∧
    (∀ c cs rest, rows = (c :: cs) :: rest → rest ≠ [] →
      classifyFromThreshold rows t d =
        (match stoi c with
         | some count =>
           if t ≤ count then
             if t * 2 ≤ count then AlertType.CRITICAL else AlertType.WARNING
           else d
         | none => d)) ∧
    (∀ rest, rows = [] :: rest → rest ≠ [] → classifyFromThreshold rows t d = d) := by
  refine ⟨?_, ?_, ?_, ?_⟩
  · intro h
    subst h
    simp [classifyFromThreshold]
  · intro r h
    subst h
    simp [classifyFromThreshold]
  · intro c cs rest h hrest
    subst h
    have hlen : 2 ≤ ((c :: cs) :: rest).length := by
      cases rest with
      | nil => exact absurd rfl hrest
      | cons y ys => simp
    rw [classifyFromThreshold, if_neg (by simp), if_pos hlen]
    rfl
  · intro rest h hrest
    subst h
    have hlen : 2 ≤ ([] :: rest : List (List String)).length := by
      cases rest with
      | nil => exact absurd rfl hrest
      | cons y ys => simp
    rw [classifyFromThreshold, if_neg (by simp), if_pos hlen]
    rfl

/-- Witness for classifyFromThreshold_amended at a concrete two-row
result: first cell 7, threshold 3, so 7 is at least twice 3 and the
classification is CRITICAL. -/
theorem classifyFromThreshold_amended_witness :
    classifyFromThreshold [["7"], ["y"]] 3 AlertType.INFO = AlertType.CRITICAL := by
  have h := (classifyFromThreshold_amended [["7"], ["y"]] 3 AlertType.INFO
    (by decide)).2.2.1 "7" [] [["y"]] rfl (by decide)
  rw [h]
  decide

/-- Claim C4 (confirmed): with duplicate detection enabled and a positive
in-range capacity, a first accepted append of an alert followed, within
the dedup window, by an append of an alert with identical type, source,
title and message stores exactly one alert: the first append returns the
assigned identifier and stores the alert, the second append returns the
sentinel -1 and leaves the store unchanged. -/
theorem addAlert_duplicate_idempotent (s : AlertSystemState) (a b : Alert) (t1 t2 : Int)
    (hdd : s.duplicateDetectionEnabled = true)
    (hcap : 1 ≤ s.maxAlerts) (hcap2 : s.maxAlerts < 2 ^ 63)
    (hfirst : isDuplicateInternal s t1 a = false)
    (hwin : t2 - s.duplicateTimeWindow ≤ t1)
    (hty : b.type = a.type) (hsrc : b.querySource = a.querySource)
    (hti : b.title = a.title) (hmsg : b.message = a.message) :
    (addAlert s t1 a).2 = s.nextAlertId ∧
    (∃ l, (addAlert s t1 a).1.alerts =
      l ++ [{ a with id := s.nextAlertId, timestamp := t1 }]) ∧
    addAlert (addAlert s t1 a).1 t2 b = ((addAlert s t1 a).1, -1) := by
  have hcond : (s.duplicateDetectionEnabled && isDuplicateInternal s t1 a) = false := by
    simp [hfirst]
  have heq := addAlert_accepted_eq hcond (by omega) (by omega)
  have hone : 1 ≤ s.maxAlerts.toNat := by omega
  have halerts : (addAlert s t1 a).1.alerts =
      s.alerts.drop (s.alerts.length + 1 - s.maxAlerts.toNat) ++
        [{ a with id := s.nextAlertId, timestamp := t1 }] := by
    rw [heq]
    exact trunc_append_last hone s.alerts _
  refine ⟨by rw [heq], ⟨_, halerts⟩, ?_⟩
  have hwindow : (addAlert s t1 a).1.duplicateTimeWindow = s.duplicateTimeWindow := by
    rw [heq]
  have henabled : (addAlert s t1 a).1.duplicateDetectionEnabled = true := by
    rw [heq]
    exact hdd
  have hmem : { a with id := s.nextAlertId, timestamp := t1 } ∈ (addAlert s t1 a).1.alerts := by
    rw [halerts]
    simp
  have hdup : isDuplicateInternal (addAlert s t1 a).1 t2 b = true := by
    rw [isDuplicateInternal, List.any_eq_true]
    refine ⟨_, hmem, ?_⟩
    simp only [Bool.and_eq_true, decide_eq_true_eq]
    refine ⟨⟨⟨⟨?_, ?_⟩, ?_⟩, ?_⟩, ?_⟩
    · rw [hwindow]
      exact hwin
    · exact hty.symm
    · exact hsrc.symm
    · exact hti.symm
    · exact hmsg.symm
  exact addAlert_suppressed (by rw [hdup, henabled]; rfl)

/-- An alert used for concrete instantiations of the store theorems. -/
def sampleAlert : Alert :=
  { id := 99, type := AlertType.WARNING, title := "w", message := "m",
    querySource := "q", timestamp := 77, rawResult := "" }

/-- Witness for addAlert_duplicate_idempotent: appending sampleAlert to
the freshly constructed store at time 0 and again at time 10 stores it
once; the second call returns -1 and changes nothing. -/
theorem addAlert_duplicate_idempotent_witness :
    (addAlert initAlertSystem 0 sampleAlert).2 = 1 ∧
    (∃ l, (addAlert initAlertSystem 0 sampleAlert).1.alerts =
      l ++ [{ sampleAlert with id := 1, timestamp := 0 }]) ∧
    addAlert (addAlert initAlertSystem 0 sampleAlert).1 10 sampleAlert =
      ((addAlert initAlertSystem 0 sampleAlert).1, -1) := by
  exact addAlert_duplicate_idempotent initAlertSystem sampleAlert sampleAlert 0 10
    rfl (by decide) (by decide) (by decide) (by decide) rfl rfl rfl rfl

/-- With duplicate detection off and an in-range capacity, a run of
appends stores the truncation of all appended alerts, ids assigned in
order. -/
theorem appendAll_alerts (inputs : List (Int × Alert)) :
    ∀ s : AlertSystemState, s.duplicateDetectionEnabled = false →
      0 ≤ s.maxAlerts → s.maxAlerts < 2 ^ 63 →
      s.alerts.length ≤ s.maxAlerts.toNat →
      (appendAll s inputs).alerts =
        trunc s.maxAlerts.toNat (s.alerts ++ storedAlerts s.nextAlertId inputs) := by
  induction inputs with
  | nil =>
    intro s hd h0 h1 hlen
    simp [appendAll, storedAlerts, trunc, Nat.sub_eq_zero_of_le hlen]
  | cons p rest ih =>
    obtain ⟨t, a⟩ := p
    intro s hd h0 h1 hlen
    have hcond : (s.duplicateDetectionEnabled && isDuplicateInternal s t a) = false := by
      simp [hd]
    have heq := addAlert_accepted_eq hcond h0 h1
    rw [appendAll, heq]
    have hrec := ih
      { s with
        alerts := trunc s.maxAlerts.toNat
          (s.alerts ++ [{ a with id := s.nextAlertId, timestamp := t }]),
        nextAlertId := s.nextAlertId + 1 }
      hd h0 h1 (by simp [trunc_length])
    simp only at hrec
    rw [hrec, trunc_append_trunc, List.append_assoc]
    rw [storedAlerts, List.singleton_append]

/-- Claim C5 (confirmed): with a nonnegative in-range capacity, one append
keeps the store at or below capacity whenever it was before, and with
duplicate detection off a run of appends into an initially empty store
leaves exactly the most recent maxAlerts appended alerts, in creation
order (trunc keeps the last elements, so the oldest are evicted first). -/
theorem alertStore_capacity_invariant (s : AlertSystemState)
    (inputs : List (Int × Alert))
    (h0 : 0 ≤ s.maxAlerts) (h1 : s.maxAlerts < 2 ^ 63) :
    (∀ now a, (s.alerts.length : Int) ≤ s.maxAlerts →
      ((addAlert s now a).1.alerts.length : Int) ≤ s.maxAlerts) ∧
    (s.duplicateDetectionEnabled = false → s.alerts = [] →
      (appendAll s inputs).alerts =
        trunc s.maxAlerts.toNat (storedAlerts s.nextAlertId inputs)) := by
  constructor
  · intro now a hlen
    by_cases hcond : (s.duplicateDetectionEnabled && isDuplicateInternal s now a) = true
    · rw [addAlert_suppressed hcond]
      exact hlen
    · have heq := addAlert_accepted_eq (by simpa using hcond) h0 h1
      rw [heq]
      simp only [trunc_length]
      have := Int.toNat_of_nonneg h0
      omega
  · intro hd hempty
    have := appendAll_alerts inputs s hd h0 h1 (by simp [hempty])
    rw [this, hempty, List.nil_append]

/-- A store of capacity two with duplicate detection off. -/
def capTwoStore : AlertSystemState :=
  { alerts := [], nextAlertId := 1, duplicateDetectionEnabled := false,
    duplicateTimeWindow := 30, maxAlerts := 2 }

/-- Three timed appends of the sample alert. -/
def threeInputs : List (Int × Alert) :=
  [(0, sampleAlert), (1, sampleAlert), (2, sampleAlert)]

/-- Witness for alertStore_capacity_invariant: capacity two, three
appends; the store length stays at or below two and the final store is
the truncated stored list. -/
theorem alertStore_capacity_invariant_witness :
    ((addAlert capTwoStore 5 sampleAlert).1.alerts.length : Int) ≤ 2 ∧
    (appendAll capTwoStore threeInputs).alerts = trunc 2 (storedAlerts 1 threeInputs) := by
  have h := alertStore_capacity_invariant capTwoStore threeInputs (by decide) (by decide)
  exact ⟨h.1 5 sampleAlert (by decide), h.2 rfl rfl⟩

/-- Members of intsFrom are at least the start value. -/
theorem intsFrom_mem_le : ∀ {n : Nat} {s y : Int}, y ∈ intsFrom s n → s ≤ y := by
  intro n
  induction n with
  | zero => intro s y h; simp [intsFrom] at h
  | succ k ih =>
    intro s y h
    rw [intsFrom] at h
    rcases List.mem_cons.mp h with h1 | h2
    · omega
    · have := ih h2
      omega

/-- intsFrom is strictly increasing. -/
theorem intsFrom_pairwise : ∀ (n : Nat) (s : Int),
    (intsFrom s n).Pairwise (fun i j => i < j) := by
  intro n
  induction n with
  | zero => intro s; simp [intsFrom]
  | succ k ih =>
    intro s
    rw [intsFrom]
    refine List.Pairwise.cons ?_ (ih (s + 1))
    intro y hy
    have := intsFrom_mem_le hy
    omega

/-- Over any operation sequence from a state with a positive id counter,
the accepted addAlert return values are the consecutive integers starting
at the counter, and the counter advances by their number. -/
theorem runStoreOps_ids (ops : List StoreOp) :
    ∀ s : AlertSystemState, 1 ≤ s.nextAlertId →
      ∃ k : Nat,
        (runStoreOps ops s).2.filter (fun i => decide (i ≠ -1)) =
            intsFrom s.nextAlertId k ∧
        (runStoreOps ops s).1.nextAlertId = s.nextAlertId + k := by
  induction ops with
  | nil =>
    intro s h
    exact ⟨0, by simp [runStoreOps, intsFrom], by simp [runStoreOps]⟩
  | cons op rest ih =>
    intro s h
    cases op with
    | add now a =>
      by_cases hcond : (s.duplicateDetectionEnabled && isDuplicateInternal s now a) = true
      · obtain ⟨k, hfil, hnid⟩ := ih s h
        refine ⟨k, ?_, ?_⟩
        · simp only [runStoreOps, applyStoreOp, addAlert_suppressed hcond,
            List.singleton_append, List.filter_cons]
          simpa using hfil
        · simp only [runStoreOps, applyStoreOp, addAlert_suppressed hcond]
          exact hnid
      · have hparts := addAlert_accepted_parts (by simpa using hcond)
        obtain ⟨k, hfil, hnid⟩ := ih (addAlert s now a).1 (by omega)
        refine ⟨k + 1, ?_, ?_⟩
        · simp only [runStoreOps, applyStoreOp, List.singleton_append, List.filter_cons,
            hparts.2.1]
          rw [if_pos (by simp; omega)]
          rw [intsFrom]
          rw [hfil, hparts.1]
        · simp only [runStoreOps, applyStoreOp]
          rw [hnid, hparts.1]
          omega
    | cleanup age now =>
      obtain ⟨k, hfil, hnid⟩ := ih (cleanupOldAlerts s age now) (by simp [cleanupOldAlerts]; omega)
      refine ⟨k, ?_, ?_⟩
      · simp only [runStoreOps, applyStoreOp, List.nil_append]
        rw [hfil]
        rfl
      · simp only [runStoreOps, applyStoreOp]
        rw [hnid]
        rfl
    | enforce m =>
      obtain ⟨k, hfil, hnid⟩ := ih (enforceMaxAlerts s m)
        (by simp only [enforceMaxAlerts]; split <;> simpa)
      have hsame : (enforceMaxAlerts s m).nextAlertId = s.nextAlertId := by
        simp only [enforceMaxAlerts]; split <;> rfl
      refine ⟨k, ?_, ?_⟩
      · simp only [runStoreOps, applyStoreOp, List.nil_append]
        rw [hfil, hsame]
      · simp only [runStoreOps, applyStoreOp]
        rw [hnid, hsame]
    | setDuplicateDetection b =>
      obtain ⟨k, hfil, hnid⟩ := ih { s with duplicateDetectionEnabled := b } (by simpa)
      exact ⟨k, by simpa [runStoreOps, applyStoreOp] using hfil,
        by simpa [runStoreOps, applyStoreOp] using hnid⟩
    | setDuplicateWindow w =>
      obtain ⟨k, hfil, hnid⟩ := ih { s with duplicateTimeWindow := w } (by simpa)
      exact ⟨k, by simpa [runStoreOps, applyStoreOp] using hfil,
        by simpa [runStoreOps, applyStoreOp] using hnid⟩
    | setMaximumAlerts m =>
      obtain ⟨k, hfil, hnid⟩ := ih { s with maxAlerts := m } (by simpa)
      exact ⟨k, by simpa [runStoreOps, applyStoreOp] using hfil,
        by simpa [runStoreOps, applyStoreOp] using hnid⟩

/-- Claim C10 (confirmed): over every operation sequence on the freshly
constructed store, the accepted addAlert return values are exactly the
consecutive identifiers 1, 2, ..., k (strictly increasing, never reused,
even across cleanup and eviction, which never touch the counter), and
each accepted append stores the alert with the counter as its id and the
call time as its timestamp, overwriting the caller-supplied values. -/
theorem alert_identifier_assignment :
    (∀ ops : List StoreOp, ∃ k : Nat,
      (runStoreOps ops initAlertSystem).2.filter (fun i => decide (i ≠ -1)) =
          intsFrom 1 k ∧
      (runStoreOps ops initAlertSystem).1.nextAlertId = 1 + k ∧
      ((runStoreOps ops initAlertSystem).2.filter
          (fun i => decide (i ≠ -1))).Pairwise (fun i j => i < j)) ∧
    (∀ (s : AlertSystemState) (now : Int) (a : Alert),
      (s.duplicateDetectionEnabled && isDuplicateInternal s now a) = false →
      1 ≤ s.maxAlerts → s.maxAlerts < 2 ^ 63 →
      (addAlert s now a).2 = s.nextAlertId ∧
      (addAlert s now a).1.nextAlertId = s.nextAlertId + 1 ∧
      ∃ l, (addAlert s now a).1.alerts =
        l ++ [{ a with id := s.nextAlertId, timestamp := now }]) := by
  constructor
  · intro ops
    obtain ⟨k, hfil, hnid⟩ := runStoreOps_ids ops initAlertSystem (by decide)
    refine ⟨k, hfil, hnid, ?_⟩
    rw [hfil]
    exact intsFrom_pairwise k _
  · intro s now a hcond hcap hcap2
    have hparts := addAlert_accepted_parts hcond
    have heq := addAlert_accepted_eq hcond (by omega) (by omega)
    refine ⟨hparts.2.1, hparts.1, ?_⟩
    rw [heq]
    exact ⟨_, trunc_append_last (by omega) s.alerts _⟩

/-- Witness for alert_identifier_assignment: a history of two accepted
appends, a duplicate (suppressed) append and a cleanup yields accepted
ids [1, 2] and a final counter of 3; and a concrete accepted append
returns the counter. -/
theorem alert_identifier_assignment_witness :
    (∃ k : Nat,
      (runStoreOps
          [StoreOp.add 0 sampleAlert,
           StoreOp.add 0 { sampleAlert with title := "other" },
           StoreOp.add 1 sampleAlert,
           StoreOp.cleanup 86400 2]
          initAlertSystem).2.filter (fun i => decide (i ≠ -1)) = intsFrom 1 k) ∧
    (addAlert capTwoStore 5 sampleAlert).2 = capTwoStore.nextAlertId := by
  constructor
  · obtain ⟨k, hfil, hrest⟩ := alert_identifier_assignment.1
      [StoreOp.add 0 sampleAlert,
       StoreOp.add 0 { sampleAlert with title := "other" },
       StoreOp.add 1 sampleAlert,
       StoreOp.cleanup 86400 2]
    exact ⟨k, hfil⟩
  · exact (alert_identifier_assignment.2 capTwoStore 5 sampleAlert (by decide)
      (by decide) (by decide)).1

/-- Claim C7, counterexample: with a live connection and a registry whose
only query is disabled, startMonitoring still transitions to Running and
starts the timer, because the source only checks that the registry map is
non-empty, never the enabled flags. -/
theorem startMonitoring_counterexample :
    (∀ p ∈ engineDisabledOnly.queries, p.2.enabled = false) ∧
    (startMonitoring engineDisabledOnly true).1.isMonitoring = true ∧
    (startMonitoring engineDisabledOnly true).1.timerActive = true ∧
    (startMonitoring engineDisabledOnly true).2 = [EngineEvent.monitoringStarted] := by
  decide

/-- Claim C7, amended: from a non-monitoring state, start() transitions to
Running with periodic ticking exactly when the database is connected and
the registry is non-empty (enabled flags are not consulted); otherwise the
state is unchanged and a queryError is surfaced. -/
theorem startMonitoring_amended (s : QueryEngineState) (connected : Bool)
    (h : s.isMonitoring = false) :
    (((startMonitoring s connected).1.isMonitoring = true ∧
      (startMonitoring s connected).1.timerActive = true ∧
      (startMonitoring s connected).2 = [EngineEvent.monitoringStarted]) ↔
        (connected = true ∧ s.queries ≠ [])) ∧
    ((connected = false ∨ s.queries = []) →
      (startMonitoring s connected).1 = s ∧
      ∃ msg, (startMonitoring s connected).2 = [EngineEvent.queryError "" msg]) := by
  cases connected with
  | false =>
    constructor
    · simp [startMonitoring, h]
    · intro hfail
      exact ⟨by simp [startMonitoring, h], "Database not connected",
        by simp [startMonitoring, h]⟩
  | true =>
    by_cases hq : s.queries = []
    · constructor
      · simp [startMonitoring, h, hq]
      · intro hfail
        exact ⟨by simp [startMonitoring, h, hq], "No queries configured",
          by simp [startMonitoring, h, hq]⟩
    · constructor
      · simp [startMonitoring, h, hq]
      · intro hfail
        rcases hfail with hfail | hfail
        · exact absurd hfail (by simp)
        · exact absurd hfail hq

/-- Witness for startMonitoring_amended: the engine holding one (disabled)
query with a live connection starts successfully. -/
theorem startMonitoring_amended_witness :
    (startMonitoring engineDisabledOnly true).1.isMonitoring = true := by
  have h := (startMonitoring_amended engineDisabledOnly true rfl).1.mpr
    ⟨rfl, by decide⟩
  exact h.1

/-- Claim C8, counterexample: a worker that passed its single stop-flag
check before the stop request completes normally, and its completion is
processed into a stored alert although monitoring has been stopped:
post-stop alerts do occur. stopMonitoring only stops the timer and never
signals workers, and QueryWorker reads its flag only before the backend
call, not before emitting. -/
theorem queryWorker_stop_counterexample :
    (stopMonitoring engineRunning).1.isMonitoring = false ∧
    (stopMonitoring engineRunning).2 = [EngineEvent.monitoringStopped] ∧
    queryWorkerExecute false oneQuery true fortyTwoBackend 0 = some inFlightResult ∧
    (onQueryCompleted (stopMonitoring engineRunning).1 initAlertSystem 0
        inFlightResult).2.1.alerts.length = 1 := by
  decide

/-- Claim C8, amended: the stop flag is consulted exactly once, before the
worker starts executing; a stop that takes effect before that check
suppresses the completion entirely, while a worker already past the check
emits its completion unconditionally and can produce an alert after
stopMonitoring, which never signals workers. -/
theorem queryWorker_stop_amended :
    (∀ (q : QueryConfig) (connected : Bool)
        (backend : String → Except String (List (List String))) (now : Int),
      queryWorkerExecute true q connected backend now = none) ∧
    ((onQueryCompleted (stopMonitoring engineRunning).1 initAlertSystem 0
        inFlightResult).2.1.alerts.length = 1 ∧
      (stopMonitoring engineRunning).1.isMonitoring = false) := by
  exact ⟨fun q c b n => rfl, by decide⟩

/-- Claim C9, counterexample: the same failing result processed twice in
a row (identical error text, within the duplicate window) stores only one
alert; the second failing execution is suppressed by duplicate detection
and is not converted into a stored alert. -/
theorem errorAlert_counterexample :
    failRun1.1.alerts.length = 1 ∧
    failRun2.1 = failRun1.1 ∧
    failRun2.2 = [] := by
  decide

/-- Claim C9, amended: a failed execution whose query is still registered
is converted into a Warning alert whose source is the query id and whose
message contains the execution error, and is stored unless duplicate
detection suppresses it; the failure is not propagated (the pipeline
returns normally, emitting alertGenerated). -/
theorem processQueryResult_error_amended
    (queries : List (String × QueryConfig)) (a : AlertSystemState) (now : Int)
    (r : QueryResult) (q : QueryConfig)
    (hfail : r.success = false)
    (hq : getQuery queries r.queryId = some q)
    (hnodup : (a.duplicateDetectionEnabled &&
        isDuplicateInternal a now (errorAlertFor q r.errorMessage)) = false)
    (hid : 1 ≤ a.nextAlertId)
    (hcap : 1 ≤ a.maxAlerts) (hcap2 : a.maxAlerts < 2 ^ 63) :
    (∃ l, (processQueryResult queries a now r).1.alerts =
      l ++ [{ errorAlertFor q r.errorMessage with id := a.nextAlertId, timestamp := now }]) ∧
    (errorAlertFor q r.errorMessage).type = AlertType.WARNING ∧
    (errorAlertFor q r.errorMessage).querySource = q.id ∧
    (∃ pre, (errorAlertFor q r.errorMessage).message = pre ++ r.errorMessage) ∧
    (processQueryResult queries a now r).2 =
      [EngineEvent.alertGenerated
        { id := a.nextAlertId, type := AlertType.WARNING, title := q.name,
          message := "Query execution failed: " ++ r.errorMessage,
          querySource := q.id, timestamp := now, rawResult := r.errorMessage }] := by
  have hpq : processQueryResult queries a now r = generateErrorAlert queries a now r := by
    simp [processQueryResult, hfail]
  have heq := addAlert_accepted_eq hnodup (by omega) (by omega)
  have hgen : generateErrorAlert queries a now r =
      ((addAlert a now (errorAlertFor q r.errorMessage)).1,
        [EngineEvent.alertGenerated
          { id := a.nextAlertId, type := AlertType.WARNING, title := q.name,
            message := "Query execution failed: " ++ r.errorMessage,
            querySource := q.id, timestamp := now, rawResult := r.errorMessage }]) := by
    simp only [generateErrorAlert, hq]
    rw [if_pos (by rw [heq]; simpa using hid)]
    rw [heq]
  refine ⟨?_, rfl, rfl, ⟨"Query execution failed: ", rfl⟩, ?_⟩
  · rw [hpq, hgen, heq]
    exact ⟨_, trunc_append_last (by omega) a.alerts _⟩
  · rw [hpq, hgen]

/-- Witness for processQueryResult_error_amended: the concrete failing
result stores the Warning alert with id 1 at time 0. -/
theorem processQueryResult_error_amended_witness :
    ∃ l, failRun1.1.alerts =
      l ++ [{ errorAlertFor oneQuery "boom" with id := 1, timestamp := 0 }] := by
  have h := processQueryResult_error_amended [("q1", oneQuery)] initAlertSystem 0
    failResult oneQuery rfl (by decide) (by decide) (by decide) (by decide) (by decide)
  exact h.1

/-- Claim C3, counterexample: in the worker-based scheduler pipeline the
content-digest check is never consulted. With alert-level duplicate
detection disabled through its public setter, a second tick whose
successful result has the same content digest as the entry recorded for
that query within the 5-second window is still classified and stored as a
second alert, instead of being discarded. -/
theorem content_dedup_counterexample :
    tickNdA.2.1.alerts.length = 1 ∧
    isRecentDuplicate tickNdA.1.queryHistory "q1" (calculateResultHash [["x"]]) 5 1 = true ∧
    tickNdB.2.1.alerts.length = 2 := by
  decide

/-- Claim C3, amended: the worker pipeline applies no content-digest
discard (the digest history is recorded but never consulted there);
duplicate suppression happens only in the alert store. Under the default
store (duplicate detection on, 30-second window), one enabled query
returning identical non-empty content on three consecutive one-second
ticks stores exactly one alert despite three executions, the later two
appends being suppressed as duplicate alerts. -/
theorem content_dedup_scenario_amended :
    tickRunA.2.1.alerts.length = 1 ∧
    tickRunB.2.1 = tickRunA.2.1 ∧
    tickRunC.2.1 = tickRunA.2.1 ∧
    tickRunC.1.totalExecutions = 3 := by
  decide

/-- Claim C2, counterexample (the claim at N = 1): a connection that was
established once (counter 1), lost on a query failure, then retried with
one failing and one succeeding attemptReconnect call. The retries never
increment the counter: both reconnectionAttempt events carry 1 (the
counter never reaches N + 1 = 2, as the state after the failing retry
shows), there are two such events rather than N = 1, the counter then
resets to 0, and no connectionStatusChanged(true) is ever emitted,
because createConnection sets the connected flag without signalling. -/
theorem reconnect_counter_counterexample :
    dbAfterConnect.1.connectionAttemptCount = 1 ∧
    (attemptReconnect false dbAfterFailure.1).1.connectionAttemptCount = 1 ∧
    dbLoopRun.2.filter isReconnectionAttemptEvent =
      [DbEvent.reconnectionAttempt 1, DbEvent.reconnectionAttempt 1] ∧
    dbLoopRun.2.filter isStatusChangedTrue = [] ∧
    dbLoopRun.1.connectionAttemptCount = 0 := by
  decide

/-- A failing attemptReconnect call keeps the counter and the
auto-reconnect flag, emits exactly one reconnectionAttempt event carrying
the unchanged counter, and emits no connectionStatusChanged(true). -/
theorem attemptReconnect_fail_facts (st : DbState) (h : st.autoReconnectEnabled = true) :
    (attemptReconnect false st).1.connectionAttemptCount = st.connectionAttemptCount ∧
    (attemptReconnect false st).1.autoReconnectEnabled = true ∧
    (attemptReconnect false st).2.filter isReconnectionAttemptEvent =
      [DbEvent.reconnectionAttempt st.connectionAttemptCount] ∧
    (attemptReconnect false st).2.filter isStatusChangedTrue = [] := by
  cases hc : st.hasConnection <;> cases hic : st.isConnected <;>
    simp [attemptReconnect, dbReconnect, dbDisconnect, createConnection,
      updateConnectionStatus, dbSetError, h, hc, hic,
      isReconnectionAttemptEvent, isStatusChangedTrue, List.filter_append,
      List.filter_cons]

/-- A succeeding attemptReconnect call resets the counter to zero, emits
exactly one reconnectionAttempt event carrying the pre-call counter, and
emits no connectionStatusChanged(true). -/
theorem attemptReconnect_success_facts (st : DbState) (h : st.autoReconnectEnabled = true) :
    (attemptReconnect true st).1.connectionAttemptCount = 0 ∧
    (attemptReconnect true st).2.filter isReconnectionAttemptEvent =
      [DbEvent.reconnectionAttempt st.connectionAttemptCount] ∧
    (attemptReconnect true st).2.filter isStatusChangedTrue = [] := by
  cases hc : st.hasConnection <;> cases hic : st.isConnected <;>
    simp [attemptReconnect, dbReconnect, dbDisconnect, createConnection,
      updateConnectionStatus, dbSetError, h, hc, hic,
      isReconnectionAttemptEvent, isStatusChangedTrue, List.filter_append,
      List.filter_cons]

/-- Claim C2, amended: with auto-reconnect enabled, a loop of N failing
attemptReconnect calls followed by one succeeding call leaves the attempt
counter untouched throughout (only an explicit connect() increments it)
and resets it to 0 on success; all N + 1 reconnectionAttempt events carry
the unchanged pre-loop counter value, and no connectionStatusChanged(true)
event is emitted anywhere in the loop. -/
theorem reconnectLoop_amended (N : Nat) :
    ∀ st : DbState, st.autoReconnectEnabled = true →
      (reconnectLoop (List.replicate N false ++ [true]) st).1.connectionAttemptCount = 0 ∧
      (reconnectLoop (List.replicate N false ++ [true]) st).2.filter
          isReconnectionAttemptEvent =
        List.replicate (N + 1) (DbEvent.reconnectionAttempt st.connectionAttemptCount) ∧
      (reconnectLoop (List.replicate N false ++ [true]) st).2.filter
          isStatusChangedTrue = [] := by
  induction N with
  | zero =>
    intro st h
    obtain ⟨h1, h2, h3⟩ := attemptReconnect_success_facts st h
    refine ⟨?_, ?_, ?_⟩
    · simpa [reconnectLoop] using h1
    · simpa [reconnectLoop, List.filter_append] using h2
    · simpa [reconnectLoop, List.filter_append] using h3
  | succ n ih =>
    intro st h
    obtain ⟨hf1, hf2, hf3, hf4⟩ := attemptReconnect_fail_facts st h
    obtain ⟨hi1, hi2, hi3⟩ := ih (attemptReconnect false st).1 hf2
    rw [List.replicate_succ, List.cons_append]
    refine ⟨?_, ?_, ?_⟩
    · simpa [reconnectLoop] using hi1
    · simp only [reconnectLoop, List.filter_append]
      rw [hf3, hi2, hf1]
      rfl
    · simp only [reconnectLoop, List.filter_append]
      rw [hf4, hi3]
      rfl

/-- Witness for reconnectLoop_amended at N = 1 from the state reached
after the lost connection. -/
theorem reconnectLoop_amended_witness :
    (reconnectLoop (List.replicate 1 false ++ [true]) dbAfterFailure.1).1.connectionAttemptCount = 0 ∧
    (reconnectLoop (List.replicate 1 false ++ [true]) dbAfterFailure.1).2.filter
        isReconnectionAttemptEvent =
      List.replicate 2 (DbEvent.reconnectionAttempt dbAfterFailure.1.connectionAttemptCount) := by
  have h := reconnectLoop_amended 1 dbAfterFailure.1 (by decide)
  exact ⟨h.1, h.2.1⟩
